import Mathlib

/-!
Shallow embedding of the pole/alert state machine of
`src/components/MapControlPanel.tsx` (kseb-smart-line-monitor).

The component keeps two pieces of React state, `poles : PoleData[]` and
`alerts : Alert[]`; the control actions (`handleAddIssue`, `handleFixIssue`,
`handleIsolatePole`, `handleRestorePole`, `handleDeleteAlert`,
`handleResetConfirm`, `handleToggleAlertExpand`) update them with pure
`map` / `filter` / cons operations.  We model the pair of states as a
`PanelState` and each handler as a function `... → PanelState → PanelState`.
`new Date().toISOString()` is passed in as a `now : String` parameter,
`Date.now()` (used for alert ids) as `nowMs : Nat`, and each call of
`Math.random()` as a rational parameter `r` with `0 ≤ r < 1`.
-/

namespace KSEB

/-- The `status` union of `PoleData` in the source. -/
inductive PoleStatus where
  | healthy
  | faulty
  | isolated
  | maintenance
deriving DecidableEq

/-- The `severity` union `"low" | "medium" | "high"`. -/
inductive Severity where
  | low
  | medium
  | high
deriving DecidableEq

/-- The `createdBy` union `"system" | "manual"` of `Alert`. -/
inductive CreatedBy where
  | system
  | manual
deriving DecidableEq

/-- The `PoleData` interface of the source (lines 26-39). -/
structure PoleData where
  id : String
  lat : ℚ
  lng : ℚ
  status : PoleStatus
  voltage : ℚ
  current : ℚ
  location : String
  lastUpdated : String
  faultType : Option String := none
  severity : Option Severity := none
  isolatedBy : Option String := none
  isolatedAt : Option String := none
deriving DecidableEq

/-- The `Alert` interface of the source (lines 41-49). -/
structure Alert where
  id : String
  poleId : String
  message : String
  timestamp : String
  severity : Severity
  isExpanded : Option Bool := none
  createdBy : Option CreatedBy := none
deriving DecidableEq

/-- Mock pole `P001` (source lines 53-64). -/
def mockP001 : PoleData :=
  { id := "P001", lat := 10.8505, lng := 76.2711, status := PoleStatus.faulty
  , voltage := 210, current := 15, location := "Kochi Central"
  , lastUpdated := "2024-01-15T10:30:00Z"
  , faultType := some ("Voltage Drop"), severity := some Severity.high }

/-- Mock pole `P002` (source lines 65-74). -/
def mockP002 : PoleData :=
  { id := "P002", lat := 11.2588, lng := 75.7804, status := PoleStatus.healthy
  , voltage := 230, current := 18, location := "Kozhikode North"
  , lastUpdated := "2024-01-15T10:29:00Z" }

/-- Mock pole `P003` (source lines 75-88). -/
def mockP003 : PoleData :=
  { id := "P003", lat := 8.5241, lng := 76.9366, status := PoleStatus.isolated
  , voltage := 0, current := 0, location := "Thiruvananthapuram East"
  , lastUpdated := "2024-01-15T10:25:00Z"
  , faultType := some ("Current Spike"), severity := some Severity.medium
  , isolatedBy := some ("Admin"), isolatedAt := some ("2024-01-15T09:45:00Z") }

/-- Mock pole `P004` (source lines 89-98). -/
def mockP004 : PoleData :=
  { id := "P004", lat := 9.9312, lng := 76.2673, status := PoleStatus.healthy
  , voltage := 235, current := 14, location := "Ernakulam"
  , lastUpdated := "2024-01-15T10:28:00Z" }

/-- Mock pole `P005` (source lines 99-109): under maintenance, yet with
voltage 220 and current 10. -/
def mockP005 : PoleData :=
  { id := "P005", lat := 10.5276, lng := 76.2144, status := PoleStatus.maintenance
  , voltage := 220, current := 10, location := "Thrissur"
  , lastUpdated := "2024-01-15T10:27:00Z"
  , faultType := some ("Scheduled Maintenance") }

/-- `mockPoles` (source lines 52-110). -/
def mockPoles : List PoleData := [mockP001, mockP002, mockP003, mockP004, mockP005]

/-- Mock alert `A001` (source lines 113-119). -/
def mockA001 : Alert :=
  { id := "A001", poleId := "P001", message := "Pole #P001 - Voltage Drop Detected"
  , timestamp := "2024-01-15T10:30:00Z", severity := Severity.high }

/-- Mock alert `A002` (source lines 120-126). -/
def mockA002 : Alert :=
  { id := "A002", poleId := "P003", message := "Pole #P003 - Current Spike Warning"
  , timestamp := "2024-01-15T10:25:00Z", severity := Severity.medium }

/-- `mockAlerts` (source lines 112-127). -/
def mockAlerts : List Alert := [mockA001, mockA002]

/-- The two React state values of `MapControlPanel` that the control actions
read and write: `poles` and `alerts` (source lines 364-365). -/
structure PanelState where
  poles : List PoleData
  alerts : List Alert
deriving DecidableEq

/-- The initial state: `useState(mockPoles)` and `useState(mockAlerts)`. -/
def initialState : PanelState := { poles := mockPoles, alerts := mockAlerts }

/-- The `issueData` record passed to `handleAddIssue` by `AddIssueModal`
(source lines 834-838): fault type, severity and free-text description. -/
structure IssueData where
  faultType : String
  severity : Severity
  description : String
deriving DecidableEq

/-- `handleAddIssue` (source lines 385-410): marks the matching pole faulty
with the given fault type and severity, and prepends a new manual alert
(id `A${Date.now()}`) to the alert list. -/
def handleAddIssue (poleId : String) (issueData : IssueData) (now : String)
    (nowMs : Nat) (s : PanelState) : PanelState :=
  { poles := s.poles.map fun pole =>
      if pole.id = poleId then
        { pole with
            status := PoleStatus.faulty
          , faultType := some issueData.faultType
          , severity := some issueData.severity
          , lastUpdated := now }
      else pole
  , alerts :=
      { id := "A" ++ toString nowMs
      , poleId := poleId
      , message := "Pole #" ++ poleId ++ " - " ++ issueData.faultType ++ " (Manual)"
      , timestamp := now
      , severity := issueData.severity
      , createdBy := some CreatedBy.manual } :: s.alerts }

/-- `handleFixIssue` (source lines 412-430): marks the matching pole healthy,
clears fault fields, draws fresh voltage `230 + Math.random() * 10` and
current `15 + Math.random() * 5` (the two draws are the parameters `r1`,
`r2`), and removes every alert whose `poleId` matches. -/
def handleFixIssue (poleId : String) (r1 r2 : ℚ) (now : String)
    (s : PanelState) : PanelState :=
  { poles := s.poles.map fun pole =>
      if pole.id = poleId then
        { pole with
            status := PoleStatus.healthy
          , faultType := none
          , severity := none
          , lastUpdated := now
          , voltage := 230 + r1 * 10
          , current := 15 + r2 * 5 }
      else pole
  , alerts := s.alerts.filter fun alert => alert.poleId != poleId }

/-- `handleIsolatePole` (source lines 432-447): marks the matching pole
isolated with zero voltage and current, records who isolated it and when.
The alert list is not touched. -/
def handleIsolatePole (poleId : String) (now : String) (s : PanelState) :
    PanelState :=
  { poles := s.poles.map fun pole =>
      if pole.id = poleId then
        { pole with
            status := PoleStatus.isolated
          , voltage := 0
          , current := 0
          , isolatedBy := some ("Manual Control")
          , isolatedAt := some now
          , lastUpdated := now }
      else pole
  , alerts := s.alerts }

/-- `handleRestorePole` (source lines 449-469): marks the matching pole
healthy with fresh random voltage and current, clears the isolation and
fault fields, and removes every alert whose `poleId` matches. -/
def handleRestorePole (poleId : String) (r1 r2 : ℚ) (now : String)
    (s : PanelState) : PanelState :=
  { poles := s.poles.map fun pole =>
      if pole.id = poleId then
        { pole with
            status := PoleStatus.healthy
          , voltage := 230 + r1 * 10
          , current := 15 + r2 * 5
          , isolatedBy := none
          , isolatedAt := none
          , faultType := none
          , severity := none
          , lastUpdated := now }
      else pole
  , alerts := s.alerts.filter fun alert => alert.poleId != poleId }

/-- `handleDeleteAlert` (source lines 471-474): removes every alert whose id
matches; the poles are not touched. -/
def handleDeleteAlert (alertId : String) (s : PanelState) : PanelState :=
  { poles := s.poles
  , alerts := s.alerts.filter fun alert => alert.id != alertId }

/-- `handleResetConfirm` (source lines 487-491): clears the alert list and
leaves the poles untouched (`setAlerts([])` is its only state update). -/
def handleResetConfirm (s : PanelState) : PanelState :=
  { poles := s.poles, alerts := [] }

/-- `handleToggleAlertExpand` (source lines 493-499): flips the `isExpanded`
flag of the matching alert (JavaScript `!undefined` is `true`, hence the
`getD false`). -/
def handleToggleAlertExpand (alertId : String) (s : PanelState) : PanelState :=
  { poles := s.poles
  , alerts := s.alerts.map fun alert =>
      if alert.id = alertId then
        { alert with isExpanded := some (!(alert.isExpanded.getD false)) }
      else alert }

/-- `faultyPoles` (source line 376): the poles whose status is `"faulty"`. -/
def faultyPoles (s : PanelState) : List PoleData :=
  s.poles.filter fun pole => pole.status == PoleStatus.faulty

/-- `hasActiveFaults` (source line 377): `faultyPoles.length > 0`. -/
def hasActiveFaults (s : PanelState) : Bool :=
  decide (0 < (faultyPoles s).length)

/-- The number shown by the alert count badge (source line 628):
`{alerts.length}`. -/
def alertBadgeCount (s : PanelState) : Nat :=
  s.alerts.length

/-- Whether the Active Alerts section renders the green "All lines are
healthy" card instead of the alert cards: the source guards the list with
`hasActiveFaults ? alerts.map(...) : <healthy card>` (source lines 632-661),
so the healthy card shows exactly when `hasActiveFaults` is false. -/
def alertSectionShowsHealthyMessage (s : PanelState) : Bool :=
  !(hasActiveFaults s)

/-- One user-initiated control action, with its clock readings and random
draws made explicit. -/
inductive Op where
  | addIssue (poleId : String) (data : IssueData) (now : String) (nowMs : Nat)
  | fixIssue (poleId : String) (r1 r2 : ℚ) (now : String)
  | isolatePole (poleId : String) (now : String)
  | restorePole (poleId : String) (r1 r2 : ℚ) (now : String)
  | deleteAlert (alertId : String)
  | resetSystem
  | toggleExpand (alertId : String)

/-- An `Op` is valid when its random draws lie in `[0, 1)`, the range of
JavaScript `Math.random()`. -/
def Op.valid : Op → Prop
  | Op.fixIssue _ r1 r2 _ => 0 ≤ r1 ∧ r1 < 1 ∧ 0 ≤ r2 ∧ r2 < 1
  | Op.restorePole _ r1 r2 _ => 0 ≤ r1 ∧ r1 < 1 ∧ 0 ≤ r2 ∧ r2 < 1
  | _ => True

/-- Applying a control action to the panel state. -/
def applyOp : Op → PanelState → PanelState
  | Op.addIssue pid d now ms, s => handleAddIssue pid d now ms s
  | Op.fixIssue pid r1 r2 now, s => handleFixIssue pid r1 r2 now s
  | Op.isolatePole pid now, s => handleIsolatePole pid now s
  | Op.restorePole pid r1 r2 now, s => handleRestorePole pid r1 r2 now s
  | Op.deleteAlert aid, s => handleDeleteAlert aid s
  | Op.resetSystem, s => handleResetConfirm s
  | Op.toggleExpand aid, s => handleToggleAlertExpand aid s

/-- The step relation of the control panel: any valid action may fire in any
state, and the successor is the one `applyOp` computes. -/
inductive Step : PanelState → Op → PanelState → Prop where
  | mk (s : PanelState) (op : Op) (h : op.valid) : Step s op (applyOp op s)

/-- The states reachable from the initial mock state by control actions. -/
inductive Reachable : PanelState → Prop where
  | init : Reachable initialState
  | step {s s' : PanelState} {op : Op} :
      Reachable s → Step s op s' → Reachable s'

/-- The concrete issue data used in the witness instances below. -/
def issueExample : IssueData :=
  { faultType := "Line Break", severity := Severity.high, description := "Test" }

/-- The state obtained by fixing pole `P001` in the initial mock state (with
both random draws equal to 0): `P001` turns healthy, its alert `A001` is
removed, and alert `A002` of the isolated pole `P003` remains. -/
def fixedStateExample : PanelState :=
  handleFixIssue ("P001") 0 0 ("2024-01-15T11:00:00Z") initialState

/-- Mapping a function over a list and then projecting does not change the
projection when the function preserves it. -/
theorem map_preserves_poleId (g : PoleData → PoleData)
    (h : ∀ p : PoleData, (g p).id = p.id) :
    ∀ l : List PoleData, (l.map g).map PoleData.id = l.map PoleData.id := by
  intro l
  induction l with
  | nil => rfl
  | cons a t ih => simp [h a, ih]

/-- Mapping a function that fixes every element of a list is the identity. -/
theorem map_noop {α : Type} (f : α → α) :
    ∀ l : List α, (∀ x ∈ l, f x = x) → l.map f = l := by
  intro l
  induction l with
  | nil => intro _; rfl
  | cons a t ih =>
      intro h
      have ha := h a (List.mem_cons_self a t)
      have ht := ih fun x hx => h x (List.mem_cons_of_mem a hx)
      simp [ha, ht]

/-- Every control action leaves the list of pole ids unchanged: the pole
updates are `map`s that keep the `id` field, and the other actions do not
touch `poles` at all. -/
theorem applyOp_map_id (op : Op) (s : PanelState) :
    (applyOp op s).poles.map PoleData.id = s.poles.map PoleData.id := by
  cases op with
  | addIssue pid d now ms =>
      dsimp only [applyOp, handleAddIssue]
      exact map_preserves_poleId _ (fun p => by by_cases h : p.id = pid <;> simp [h]) s.poles
  | fixIssue pid r1 r2 now =>
      dsimp only [applyOp, handleFixIssue]
      exact map_preserves_poleId _ (fun p => by by_cases h : p.id = pid <;> simp [h]) s.poles
  | isolatePole pid now =>
      dsimp only [applyOp, handleIsolatePole]
      exact map_preserves_poleId _ (fun p => by by_cases h : p.id = pid <;> simp [h]) s.poles
  | restorePole pid r1 r2 now =>
      dsimp only [applyOp, handleRestorePole]
      exact map_preserves_poleId _ (fun p => by by_cases h : p.id = pid <;> simp [h]) s.poles
  | deleteAlert aid => rfl
  | resetSystem => rfl
  | toggleExpand aid => rfl

/-- Every control action preserves the invariant that isolated poles carry
zero voltage and current. -/
theorem applyOp_isolated_zero (op : Op) (s : PanelState)
    (ih : ∀ p ∈ s.poles, p.status = PoleStatus.isolated →
      p.voltage = 0 ∧ p.current = 0) :
    ∀ p ∈ (applyOp op s).poles, p.status = PoleStatus.isolated →
      p.voltage = 0 ∧ p.current = 0 := by
  cases op with
  | addIssue pid d now ms =>
      intro p hp hst
      dsimp only [applyOp, handleAddIssue] at hp
      rw [List.mem_map] at hp
      obtain ⟨q, hq, rfl⟩ := hp
      by_cases h : q.id = pid
      · simp [h] at hst
      · simp only [if_neg h] at hst ⊢
        exact ih q hq hst
  | fixIssue pid r1 r2 now =>
      intro p hp hst
      dsimp only [applyOp, handleFixIssue] at hp
      rw [List.mem_map] at hp
      obtain ⟨q, hq, rfl⟩ := hp
      by_cases h : q.id = pid
      · simp [h] at hst
      · simp only [if_neg h] at hst ⊢
        exact ih q hq hst
  | isolatePole pid now =>
      intro p hp hst
      dsimp only [applyOp, handleIsolatePole] at hp
      rw [List.mem_map] at hp
      obtain ⟨q, hq, rfl⟩ := hp
      by_cases h : q.id = pid
      · simp [h]
      · simp only [if_neg h] at hst ⊢
        exact ih q hq hst
  | restorePole pid r1 r2 now =>
      intro p hp hst
      dsimp only [applyOp, handleRestorePole] at hp
      rw [List.mem_map] at hp
      obtain ⟨q, hq, rfl⟩ := hp
      by_cases h : q.id = pid
      · simp [h] at hst
      · simp only [if_neg h] at hst ⊢
        exact ih q hq hst
  | deleteAlert aid => intro p hp hst; exact ih p hp hst
  | resetSystem => intro p hp hst; exact ih p hp hst
  | toggleExpand aid => intro p hp hst; exact ih p hp hst

/-- Claim C9: no control action (isolate, restore, fix, addIssue, reset,
deleteAlert, toggle-expand) adds or removes registry entries: in every
reachable state the pole registry holds exactly the five mock poles
`P001`-`P005`, in order. -/
theorem reachable_pole_ids (s : PanelState) (hs : Reachable s) :
    s.poles.map PoleData.id = ["P001", "P002", "P003", "P004", "P005"] := by
  induction hs with
  | init => rfl
  | step hr hst ih =>
      cases hst
      rw [applyOp_map_id]
      exact ih

/-- Witness for C9: the initial state itself. -/
theorem reachable_pole_ids_witness :
    initialState.poles.map PoleData.id = ["P001", "P002", "P003", "P004", "P005"] :=
  reachable_pole_ids initialState Reachable.init

/-- Counterexample to C3 as stated: already in the initial mock state the
maintenance pole `P005` has voltage 220 and current 10, so it is false that
every isolated-or-maintenance pole reports zero voltage and current. -/
theorem isolated_or_maintenance_zero_counterexample :
    ¬ (∀ p ∈ initialState.poles,
        (p.status = PoleStatus.isolated ∨ p.status = PoleStatus.maintenance) →
          p.voltage = 0 ∧ p.current = 0) := by
  intro h
  have h5 := h mockP005 (by simp [initialState, mockPoles])
    (Or.inr (by simp [mockP005]))
  have : (220 : ℚ) = 0 := h5.1
  norm_num at this

/-- Claim C3 (amended): in the initial mock state and in every state
reachable by control actions, every pole whose status is `"isolated"` has
voltage 0 and current 0.  (The `"maintenance"` half of the original claim is
false: mock pole `P005` is under maintenance with voltage 220, current 10.) -/
theorem reachable_isolated_zero (s : PanelState) (hs : Reachable s) :
    ∀ p ∈ s.poles, p.status = PoleStatus.isolated →
      p.voltage = 0 ∧ p.current = 0 := by
  induction hs with
  | init =>
      intro p hp
      simp only [initialState, mockPoles, List.mem_cons, List.not_mem_nil,
        or_false] at hp
      rcases hp with rfl | rfl | rfl | rfl | rfl <;>
        simp [mockP001, mockP002, mockP003, mockP004, mockP005]
  | step hr hst ih =>
      cases hst
      exact applyOp_isolated_zero _ _ ih

/-- Witness for the amended C3: the isolated mock pole `P003` in the initial
state indeed reports zero voltage and current. -/
theorem reachable_isolated_zero_witness :
    mockP003.voltage = 0 ∧ mockP003.current = 0 :=
  reachable_isolated_zero initialState Reachable.init mockP003
    (by simp [initialState, mockPoles]) (by simp [mockP003])

/-- Claim C1: isolating a pole id turns the pole with that id into an
isolated pole with zero voltage and current, `isolatedBy` set to
`"Manual Control"` and `isolatedAt` set to the isolation time, while every
pole with a different id is unchanged (stated position-wise over the
registry). -/
theorem isolate_spec (s : PanelState) (pid now : String) (i : Nat)
    (hi : i < s.poles.length)
    (hi' : i < (handleIsolatePole pid now s).poles.length) :
    (handleIsolatePole pid now s).poles.length = s.poles.length ∧
    ((s.poles.get ⟨i, hi⟩).id = pid →
      ((handleIsolatePole pid now s).poles.get ⟨i, hi'⟩).status = PoleStatus.isolated ∧
      ((handleIsolatePole pid now s).poles.get ⟨i, hi'⟩).voltage = 0 ∧
      ((handleIsolatePole pid now s).poles.get ⟨i, hi'⟩).current = 0 ∧
      ((handleIsolatePole pid now s).poles.get ⟨i, hi'⟩).isolatedBy = some ("Manual Control") ∧
      ((handleIsolatePole pid now s).poles.get ⟨i, hi'⟩).isolatedAt = some now) ∧
    ((s.poles.get ⟨i, hi⟩).id ≠ pid →
      (handleIsolatePole pid now s).poles.get ⟨i, hi'⟩ = s.poles.get ⟨i, hi⟩) := by
  have hget : (handleIsolatePole pid now s).poles.get ⟨i, hi'⟩
      = if (s.poles.get ⟨i, hi⟩).id = pid then
          { s.poles.get ⟨i, hi⟩ with
              status := PoleStatus.isolated
            , voltage := 0
            , current := 0
            , isolatedBy := some ("Manual Control")
            , isolatedAt := some now
            , lastUpdated := now }
        else s.poles.get ⟨i, hi⟩ := by
    simp [handleIsolatePole, List.get_eq_getElem, List.getElem_map]
  refine ⟨by simp [handleIsolatePole], ?_, ?_⟩
  · intro h
    rw [hget, if_pos h]
    exact ⟨rfl, rfl, rfl, rfl, rfl⟩
  · intro h
    rw [hget, if_neg h]

/-- Witness for C1: isolating `P001` in the initial state, observed at
registry position 0. -/
theorem isolate_spec_witness :
    (handleIsolatePole ("P001") ("T0") initialState).poles.length
        = initialState.poles.length ∧
    ((initialState.poles.get ⟨0, by decide⟩).id = "P001" →
      ((handleIsolatePole ("P001") ("T0") initialState).poles.get ⟨0, by decide⟩).status = PoleStatus.isolated ∧
      ((handleIsolatePole ("P001") ("T0") initialState).poles.get ⟨0, by decide⟩).voltage = 0 ∧
      ((handleIsolatePole ("P001") ("T0") initialState).poles.get ⟨0, by decide⟩).current = 0 ∧
      ((handleIsolatePole ("P001") ("T0") initialState).poles.get ⟨0, by decide⟩).isolatedBy = some ("Manual Control") ∧
      ((handleIsolatePole ("P001") ("T0") initialState).poles.get ⟨0, by decide⟩).isolatedAt = some ("T0")) ∧
    ((initialState.poles.get ⟨0, by decide⟩).id ≠ "P001" →
      (handleIsolatePole ("P001") ("T0") initialState).poles.get ⟨0, by decide⟩
        = initialState.poles.get ⟨0, by decide⟩) :=
  isolate_spec initialState ("P001") ("T0") 0 (by decide) (by decide)

/-- Counterexample to C2 as stated: with the initial mock state (which
contains pole `P001`), `isolate("P001")` leaves the alert collection
completely unchanged, and `reset()` leaves every pole unchanged — so it is
not the case that each of the five operations mutates both the pole status
and the related alert entries. -/
theorem each_op_mutates_both_counterexample :
    (handleIsolatePole ("P001") ("2024-01-15T11:00:00Z") initialState).alerts
        = initialState.alerts ∧
    (handleResetConfirm initialState).poles = initialState.poles :=
  ⟨rfl, rfl⟩

/-- Claim C2 (amended): `fix`, `restore` and `addIssue` mutate both the
targeted pole's status and the alert log (`fix`/`restore` set the pole
healthy and delete its related alerts, `addIssue` sets it faulty and
prepends one alert); `isolate` sets the pole's status to isolated but leaves
the alert log entirely unchanged; `reset` empties the alert log but leaves
every pole entirely unchanged. -/
theorem ops_mutation_profile (s : PanelState) (pid now : String) (d : IssueData)
    (ms : Nat) (r1 r2 : ℚ) (p : PoleData) (hp : p ∈ s.poles) (hpid : p.id = pid)
    (a : Alert) (ha : a ∈ s.alerts) (hapid : a.poleId = pid) :
    (∃ q ∈ (handleFixIssue pid r1 r2 now s).poles,
        q.id = pid ∧ q.status = PoleStatus.healthy) ∧
    a ∉ (handleFixIssue pid r1 r2 now s).alerts ∧
    (∃ q ∈ (handleRestorePole pid r1 r2 now s).poles,
        q.id = pid ∧ q.status = PoleStatus.healthy) ∧
    a ∉ (handleRestorePole pid r1 r2 now s).alerts ∧
    (∃ q ∈ (handleAddIssue pid d now ms s).poles,
        q.id = pid ∧ q.status = PoleStatus.faulty) ∧
    (handleAddIssue pid d now ms s).alerts.length = s.alerts.length + 1 ∧
    (∃ q ∈ (handleIsolatePole pid now s).poles,
        q.id = pid ∧ q.status = PoleStatus.isolated) ∧
    (handleIsolatePole pid now s).alerts = s.alerts ∧
    (handleResetConfirm s).poles = s.poles ∧
    (handleResetConfirm s).alerts = [] := by
  refine ⟨?_, ?_, ?_, ?_, ?_, ?_, ?_, rfl, rfl, rfl⟩
  · exact ⟨_, List.mem_map_of_mem _ hp, by simp [hpid], by simp [hpid]⟩
  · simp [handleFixIssue, List.mem_filter, hapid]
  · exact ⟨_, List.mem_map_of_mem _ hp, by simp [hpid], by simp [hpid]⟩
  · simp [handleRestorePole, List.mem_filter, hapid]
  · exact ⟨_, List.mem_map_of_mem _ hp, by simp [hpid], by simp [hpid]⟩
  · simp [handleAddIssue]
  · exact ⟨_, List.mem_map_of_mem _ hp, by simp [hpid], by simp [hpid]⟩

/-- Witness for the amended C2: the faulty mock pole `P001` and its alert
`A001` in the initial state. -/
theorem ops_mutation_profile_witness :
    (∃ q ∈ (handleFixIssue ("P001") 0 0 ("T3") initialState).poles,
        q.id = "P001" ∧ q.status = PoleStatus.healthy) ∧
    mockA001 ∉ (handleFixIssue ("P001") 0 0 ("T3") initialState).alerts ∧
    (∃ q ∈ (handleRestorePole ("P001") 0 0 ("T3") initialState).poles,
        q.id = "P001" ∧ q.status = PoleStatus.healthy) ∧
    mockA001 ∉ (handleRestorePole ("P001") 0 0 ("T3") initialState).alerts ∧
    (∃ q ∈ (handleAddIssue ("P001") issueExample ("T3") 5 initialState).poles,
        q.id = "P001" ∧ q.status = PoleStatus.faulty) ∧
    (handleAddIssue ("P001") issueExample ("T3") 5 initialState).alerts.length
        = initialState.alerts.length + 1 ∧
    (∃ q ∈ (handleIsolatePole ("P001") ("T3") initialState).poles,
        q.id = "P001" ∧ q.status = PoleStatus.isolated) ∧
    (handleIsolatePole ("P001") ("T3") initialState).alerts = initialState.alerts ∧
    (handleResetConfirm initialState).poles = initialState.poles ∧
    (handleResetConfirm initialState).alerts = [] :=
  ops_mutation_profile initialState ("P001") ("T3") issueExample 5 0 0
    mockP001 (by simp [initialState, mockPoles]) rfl
    mockA001 (by simp [initialState, mockAlerts]) rfl

/-- Claim C4: `fix(poleId)` and `restore(poleId)` keep exactly the alerts
whose `poleId` field differs from the argument (so they delete exactly the
related alerts), and `deleteAlert(alertId)` keeps exactly the alerts whose
id differs from the argument. -/
theorem alerts_deletion_exact (s : PanelState) (pid aid now : String)
    (r1 r2 : ℚ) :
    (∀ a : Alert, a ∈ (handleFixIssue pid r1 r2 now s).alerts ↔
        a ∈ s.alerts ∧ a.poleId ≠ pid) ∧
    (∀ a : Alert, a ∈ (handleRestorePole pid r1 r2 now s).alerts ↔
        a ∈ s.alerts ∧ a.poleId ≠ pid) ∧
    (∀ a : Alert, a ∈ (handleDeleteAlert aid s).alerts ↔
        a ∈ s.alerts ∧ a.id ≠ aid) := by
  refine ⟨fun a => ?_, fun a => ?_, fun a => ?_⟩ <;>
    simp [handleFixIssue, handleRestorePole, handleDeleteAlert, List.mem_filter]

/-- Witness for C4: deleting alert `A002` in the initial state, observed on
alert `A001`. -/
theorem alerts_deletion_exact_witness :
    mockA001 ∈ (handleDeleteAlert ("A002") initialState).alerts ↔
      mockA001 ∈ initialState.alerts ∧ mockA001.id ≠ "A002" :=
  (alerts_deletion_exact initialState ("P001") ("A002") ("T4") 0 0).2.2 mockA001

/-- Claim C5: `addIssue(poleId, data)` prepends exactly one new alert (with
that `poleId`, the severity of `data`, and `createdBy = "manual"`) to the
alert log, keeping all previous alerts, and sets the pole with that id to
faulty with fault type and severity taken from `data`; other poles are
unchanged. -/
theorem addIssue_spec (s : PanelState) (pid : String) (d : IssueData)
    (now : String) (ms : Nat) (i : Nat) (hi : i < s.poles.length)
    (hi' : i < (handleAddIssue pid d now ms s).poles.length) :
    (∃ na : Alert, (handleAddIssue pid d now ms s).alerts = na :: s.alerts ∧
        na.poleId = pid ∧ na.severity = d.severity ∧
        na.createdBy = some CreatedBy.manual) ∧
    (handleAddIssue pid d now ms s).poles.length = s.poles.length ∧
    ((s.poles.get ⟨i, hi⟩).id = pid →
      ((handleAddIssue pid d now ms s).poles.get ⟨i, hi'⟩).status = PoleStatus.faulty ∧
      ((handleAddIssue pid d now ms s).poles.get ⟨i, hi'⟩).faultType = some d.faultType ∧
      ((handleAddIssue pid d now ms s).poles.get ⟨i, hi'⟩).severity = some d.severity) ∧
    ((s.poles.get ⟨i, hi⟩).id ≠ pid →
      (handleAddIssue pid d now ms s).poles.get ⟨i, hi'⟩ = s.poles.get ⟨i, hi⟩) := by
  have hget : (handleAddIssue pid d now ms s).poles.get ⟨i, hi'⟩
      = if (s.poles.get ⟨i, hi⟩).id = pid then
          { s.poles.get ⟨i, hi⟩ with
              status := PoleStatus.faulty
            , faultType := some d.faultType
            , severity := some d.severity
            , lastUpdated := now }
        else s.poles.get ⟨i, hi⟩ := by
    simp [handleAddIssue, List.get_eq_getElem, List.getElem_map]
  refine ⟨⟨_, rfl, rfl, rfl, rfl⟩, by simp [handleAddIssue], ?_, ?_⟩
  · intro h
    rw [hget, if_pos h]
    exact ⟨rfl, rfl, rfl⟩
  · intro h
    rw [hget, if_neg h]

/-- Witness for C5: adding an issue to the healthy pole `P002` of the
initial state, observed at registry position 1. -/
theorem addIssue_spec_witness :
    (∃ na : Alert,
        (handleAddIssue ("P002") issueExample ("T2") 7 initialState).alerts
          = na :: initialState.alerts ∧
        na.poleId = "P002" ∧ na.severity = issueExample.severity ∧
        na.createdBy = some CreatedBy.manual) ∧
    (handleAddIssue ("P002") issueExample ("T2") 7 initialState).poles.length
        = initialState.poles.length ∧
    ((initialState.poles.get ⟨1, by decide⟩).id = "P002" →
      ((handleAddIssue ("P002") issueExample ("T2") 7 initialState).poles.get ⟨1, by decide⟩).status = PoleStatus.faulty ∧
      ((handleAddIssue ("P002") issueExample ("T2") 7 initialState).poles.get ⟨1, by decide⟩).faultType = some issueExample.faultType ∧
      ((handleAddIssue ("P002") issueExample ("T2") 7 initialState).poles.get ⟨1, by decide⟩).severity = some issueExample.severity) ∧
    ((initialState.poles.get ⟨1, by decide⟩).id ≠ "P002" →
      (handleAddIssue ("P002") issueExample ("T2") 7 initialState).poles.get ⟨1, by decide⟩
        = initialState.poles.get ⟨1, by decide⟩) :=
  addIssue_spec initialState ("P002") issueExample ("T2") 7 1 (by decide) (by decide)

/-- Claim C6: for random draws `r1, r2 ∈ [0, 1)`, `fix(poleId)` turns the
pole with that id healthy, clears its fault type and severity, and gives it
a voltage in `[230, 240)` and a current in `[15, 20)`; every pole with a
different id is unchanged. -/
theorem fixIssue_spec (s : PanelState) (pid now : String) (r1 r2 : ℚ)
    (hr1 : 0 ≤ r1) (hr1l : r1 < 1) (hr2 : 0 ≤ r2) (hr2l : r2 < 1)
    (i : Nat) (hi : i < s.poles.length)
    (hi' : i < (handleFixIssue pid r1 r2 now s).poles.length) :
    (handleFixIssue pid r1 r2 now s).poles.length = s.poles.length ∧
    ((s.poles.get ⟨i, hi⟩).id = pid →
      ((handleFixIssue pid r1 r2 now s).poles.get ⟨i, hi'⟩).status = PoleStatus.healthy ∧
      ((handleFixIssue pid r1 r2 now s).poles.get ⟨i, hi'⟩).faultType = none ∧
      ((handleFixIssue pid r1 r2 now s).poles.get ⟨i, hi'⟩).severity = none ∧
      230 ≤ ((handleFixIssue pid r1 r2 now s).poles.get ⟨i, hi'⟩).voltage ∧
      ((handleFixIssue pid r1 r2 now s).poles.get ⟨i, hi'⟩).voltage < 240 ∧
      15 ≤ ((handleFixIssue pid r1 r2 now s).poles.get ⟨i, hi'⟩).current ∧
      ((handleFixIssue pid r1 r2 now s).poles.get ⟨i, hi'⟩).current < 20) ∧
    ((s.poles.get ⟨i, hi⟩).id ≠ pid →
      (handleFixIssue pid r1 r2 now s).poles.get ⟨i, hi'⟩ = s.poles.get ⟨i, hi⟩) := by
  have hget : (handleFixIssue pid r1 r2 now s).poles.get ⟨i, hi'⟩
      = if (s.poles.get ⟨i, hi⟩).id = pid then
          { s.poles.get ⟨i, hi⟩ with
              status := PoleStatus.healthy
            , faultType := none
            , severity := none
            , lastUpdated := now
            , voltage := 230 + r1 * 10
            , current := 15 + r2 * 5 }
        else s.poles.get ⟨i, hi⟩ := by
    simp [handleFixIssue, List.get_eq_getElem, List.getElem_map]
  refine ⟨by simp [handleFixIssue], ?_, ?_⟩
  · intro h
    rw [hget, if_pos h]
    refine ⟨rfl, rfl, rfl, ?_, ?_, ?_, ?_⟩
    · show (230 : ℚ) ≤ 230 + r1 * 10
      linarith
    · show (230 : ℚ) + r1 * 10 < 240
      linarith
    · show (15 : ℚ) ≤ 15 + r2 * 5
      linarith
    · show (15 : ℚ) + r2 * 5 < 20
      linarith
  · intro h
    rw [hget, if_neg h]

/-- Witness for C6: fixing pole `P001` of the initial state with both random
draws equal to 1/2, observed at registry position 0. -/
theorem fixIssue_spec_witness :
    (handleFixIssue ("P001") (1/2) (1/2) ("T5") initialState).poles.length
        = initialState.poles.length ∧
    ((initialState.poles.get ⟨0, by decide⟩).id = "P001" →
      ((handleFixIssue ("P001") (1/2) (1/2) ("T5") initialState).poles.get ⟨0, by decide⟩).status = PoleStatus.healthy ∧
      ((handleFixIssue ("P001") (1/2) (1/2) ("T5") initialState).poles.get ⟨0, by decide⟩).faultType = none ∧
      ((handleFixIssue ("P001") (1/2) (1/2) ("T5") initialState).poles.get ⟨0, by decide⟩).severity = none ∧
      230 ≤ ((handleFixIssue ("P001") (1/2) (1/2) ("T5") initialState).poles.get ⟨0, by decide⟩).voltage ∧
      ((handleFixIssue ("P001") (1/2) (1/2) ("T5") initialState).poles.get ⟨0, by decide⟩).voltage < 240 ∧
      15 ≤ ((handleFixIssue ("P001") (1/2) (1/2) ("T5") initialState).poles.get ⟨0, by decide⟩).current ∧
      ((handleFixIssue ("P001") (1/2) (1/2) ("T5") initialState).poles.get ⟨0, by decide⟩).current < 20) ∧
    ((initialState.poles.get ⟨0, by decide⟩).id ≠ "P001" →
      (handleFixIssue ("P001") (1/2) (1/2) ("T5") initialState).poles.get ⟨0, by decide⟩
        = initialState.poles.get ⟨0, by decide⟩) :=
  fixIssue_spec initialState ("P001") ("T5") (1/2) (1/2) (by norm_num)
    (by norm_num) (by norm_num) (by norm_num) 0 (by decide) (by decide)

/-- Claim C7: every control action is total and never fails: in every state,
every valid action (including one naming a pole id or alert id that is not
present) has exactly one successor state and no error outcome. -/
theorem controlAction_total (s : PanelState) (op : Op) (h : op.valid) :
    ∃! s' : PanelState, Step s op s' := by
  refine ⟨applyOp op s, Step.mk s op h, ?_⟩
  intro s' hs'
  cases hs'
  rfl

/-- Witness for C7: the reset action in the initial state. -/
theorem controlAction_total_witness :
    ∃! s' : PanelState, Step initialState Op.resetSystem s' :=
  controlAction_total initialState Op.resetSystem trivial

/-- Claim C8: adding an issue for a pole id that occurs nowhere in the
registry leaves the registry completely unchanged, yet still prepends one
new alert referencing that nonexistent pole id. -/
theorem addIssue_missing_pole (s : PanelState) (pid : String) (d : IssueData)
    (now : String) (ms : Nat) (h : ∀ p ∈ s.poles, p.id ≠ pid) :
    (handleAddIssue pid d now ms s).poles = s.poles ∧
    ∃ na : Alert, (handleAddIssue pid d now ms s).alerts = na :: s.alerts ∧
      na.poleId = pid := by
  constructor
  · exact map_noop _ s.poles fun p hp => by simp [h p hp]
  · exact ⟨_, rfl, rfl⟩

/-- Witness for C8: adding an issue for the nonexistent pole id `P999` in
the initial state. -/
theorem addIssue_missing_pole_witness :
    (handleAddIssue ("P999") issueExample ("T6") 7 initialState).poles
        = initialState.poles ∧
    ∃ na : Alert,
      (handleAddIssue ("P999") issueExample ("T6") 7 initialState).alerts
        = na :: initialState.alerts ∧ na.poleId = "P999" :=
  addIssue_missing_pole initialState ("P999") issueExample ("T6") 7
    (by simp [initialState, mockPoles, mockP001, mockP002, mockP003, mockP004,
      mockP005])

/-- Claim C10: some reachable state has a non-empty alert log while no pole
is faulty (fixing `P001` from the initial state is such a state: alert
`A002` of the isolated pole `P003` remains), and in every such state the
alert section renders the "All lines are healthy" card instead of the
remaining alerts while the alert count badge still shows the non-zero alert
count. -/
theorem healthy_message_despite_alerts :
    (∃ s : PanelState, Reachable s ∧ s.alerts ≠ [] ∧ hasActiveFaults s = false) ∧
    (∀ s : PanelState, s.alerts ≠ [] → hasActiveFaults s = false →
      alertSectionShowsHealthyMessage s = true ∧ alertBadgeCount s ≠ 0) := by
  constructor
  · refine ⟨fixedStateExample, ?_, ?_, ?_⟩
    · exact Reachable.step Reachable.init
        (Step.mk initialState
          (Op.fixIssue ("P001") 0 0 ("2024-01-15T11:00:00Z"))
          (by exact ⟨le_refl 0, by norm_num, le_refl 0, by norm_num⟩))
    · decide
    · decide
  · intro s h1 h2
    constructor
    · simp [alertSectionShowsHealthyMessage, h2]
    · exact fun hlen => h1 (List.length_eq_zero.mp hlen)

/-- Witness for C10: the state reached by fixing `P001` from the initial
state shows the healthy card while its badge count is non-zero. -/
theorem healthy_message_despite_alerts_witness :
    alertSectionShowsHealthyMessage fixedStateExample = true ∧
    alertBadgeCount fixedStateExample ≠ 0 :=
  healthy_message_despite_alerts.2 fixedStateExample (by decide) (by decide)

end KSEB
